import Mathlib

/-!
Shallow embedding of the jungo-cli extrinsic flows and helpers, translated
from `src/bittensor_cli/src/bittensor/extrinsics/transfer.py`,
`src/src/commands/root.py` and `src/src/utils.py`.

External I/O (RPC queries, wallet unlocking, user confirmation prompts,
extrinsic submission outcomes) is modelled by passing the observed outcomes
of those calls as explicit inputs to each flow function; each flow returns
both its boolean result and a record of which side effects (prompt shown,
extrinsic submitted) it reached.
-/

/-- Modelled from the spec: the Balance value type
(`bittensor_cli/src/bittensor/balances.py` is referenced by the flows but is
not part of the sources in scope).  Per the spec it is a fixed-point integer
amount in the smallest unit ("rao"), constructed from the smallest unit or
from a decimal token amount via the scale factor 10^9 with rounding;
addition, subtraction and comparison act on the underlying integer, and
subtraction may go negative (deltas). -/
structure Balance where
  rao : ℤ
deriving DecidableEq, Repr

/-- Modelled from the spec: `Balance.from_rao(x)` constructs from the smallest unit. -/
def Balance.from_rao (x : ℤ) : Balance := ⟨x⟩

/-- Modelled from the spec: decimal token ("tao") view of a balance, `rao / 10^9`. -/
def Balance.tao (b : Balance) : ℚ := (b.rao : ℚ) / 1000000000

/-- Modelled from the spec: `Balance.from_tao(a)` is `round(a * 10^9)` rao. -/
def Balance.from_tao (a : ℚ) : Balance := ⟨round (a * 1000000000)⟩

instance : Add Balance := ⟨fun a b => ⟨a.rao + b.rao⟩⟩

instance : Sub Balance := ⟨fun a b => ⟨a.rao - b.rao⟩⟩

instance : LT Balance := ⟨fun a b => a.rao < b.rao⟩

instance : LE Balance := ⟨fun a b => a.rao ≤ b.rao⟩

instance (a b : Balance) : Decidable (a < b) := Int.decLt a.rao b.rao

instance (a b : Balance) : Decidable (a ≤ b) := Int.decLe a.rao b.rao

theorem Balance.add_rao (a b : Balance) : (a + b).rao = a.rao + b.rao := rfl

theorem Balance.lt_def (a b : Balance) : a < b ↔ a.rao < b.rao := Iff.rfl

theorem Balance.le_def (a b : Balance) : a ≤ b ↔ a.rao ≤ b.rao := Iff.rfl

theorem Balance.le_of_not_lt {a b : Balance} (h : ¬ a < b) : b ≤ a := Int.not_lt.mp h

theorem Balance.not_lt_of_le {a b : Balance} (h : a ≤ b) : ¬ b < a := Int.not_lt.mpr h

/-- `Balance.from_tao (b.tao) = b`: round-tripping through the decimal view is
exact in the rational model (`round ((rao / 10^9) * 10^9) = rao`). -/
theorem Balance.from_tao_tao (b : Balance) : Balance.from_tao b.tao = b := by
  unfold Balance.from_tao Balance.tao
  have h : (b.rao : ℚ) / 1000000000 * 1000000000 = (b.rao : ℚ) := by
    field_simp
  rw [h, round_intCast]

/-! ## Transfer flow (`transfer.py`, `transfer_extrinsic` and its inner `get_transfer_fee`) -/

/-- Observed outcomes of the external calls made by `transfer_extrinsic`,
plus its arguments.  `payment_info` is the result of the
`get_payment_info` RPC: `some f` is a successful query returning
`partialFee = f`; `none` is any raised exception. -/
structure TransferInputs where
  valid_dest : Bool
  account_balance : Balance
  existential_deposit : Balance
  amount : Balance
  fee : Balance
  keep_alive : Bool
  prompt : Bool
  prompt_accept : Bool
  do_transfer_success : Bool
deriving DecidableEq, Repr

structure TransferResult where
  success : Bool
  submitted : Bool
deriving DecidableEq, Repr

/-- `get_transfer_fee` from `transfer.py` lines 44-68: query payment info;
on any exception substitute `partialFee = int(2e7)` rao and print a warning,
then return `Balance.from_rao` of the fee.  The second component records
whether the warning was emitted. -/
def get_transfer_fee (payment_info : Option ℕ) : Balance × Bool :=
  match payment_info with
  | some f => (Balance.from_rao f, false)
  | none => (Balance.from_rao 20000000, true)

/-- `transfer_extrinsic` from `transfer.py` lines 100-176: validate the
destination, fetch balance / existential deposit / fee, zero the existential
deposit when `keep_alive` is false, abort on insufficient balance, optionally
prompt, then submit via `do_transfer`. -/
def transfer_extrinsic (i : TransferInputs) : TransferResult :=
  if ¬ i.valid_dest then ⟨false, false⟩
  else if i.account_balance <
      i.amount + i.fee +
        (if ¬ i.keep_alive then Balance.from_rao 0 else i.existential_deposit) then
    ⟨false, false⟩
  else if i.prompt ∧ ¬ i.prompt_accept then ⟨false, false⟩
  else ⟨i.do_transfer_success, true⟩

/-- Claim C1: with a valid destination and the confirmation prompt not
rejecting, the transfer flow reaches submission exactly when
`amount + fee + existential_deposit ≤ balance`, where the existential-deposit
term is zero when `keep_alive` is false; and whenever the balance is
insufficient the flow returns failure without attempting submission. -/
theorem transfer_balance_gate (i : TransferInputs)
    (hdest : i.valid_dest = true)
    (hprompt : i.prompt = false ∨ i.prompt_accept = true) :
    ((transfer_extrinsic i).submitted = true ↔
      i.amount + i.fee +
        (if i.keep_alive then i.existential_deposit else Balance.from_rao 0) ≤
          i.account_balance)
    ∧ (i.account_balance <
        i.amount + i.fee +
          (if i.keep_alive then i.existential_deposit else Balance.from_rao 0) →
        transfer_extrinsic i = ⟨false, false⟩) := by
  have hreq : (if ¬ i.keep_alive then Balance.from_rao 0 else i.existential_deposit)
      = (if i.keep_alive then i.existential_deposit else Balance.from_rao 0) := by
    cases hk : i.keep_alive <;> simp
  unfold transfer_extrinsic
  rw [hdest, hreq, if_neg (fun h => h rfl)]
  by_cases hlt : i.account_balance <
      i.amount + i.fee + (if i.keep_alive then i.existential_deposit else Balance.from_rao 0)
  · rw [if_pos hlt]
    exact ⟨iff_of_false Bool.false_ne_true
      (fun hle => absurd hlt (Balance.not_lt_of_le hle)), fun _ => rfl⟩
  · rw [if_neg hlt]
    have hcond : ¬((i.prompt = true) ∧ ¬(i.prompt_accept = true)) := by
      rcases hprompt with hp | hp
      · intro hc; rw [hp] at hc; exact Bool.false_ne_true hc.1
      · intro hc; exact hc.2 hp
    rw [if_neg hcond]
    exact ⟨iff_of_true rfl (Balance.le_of_not_lt hlt), fun hl => absurd hl hlt⟩

/-- Witness for C1 at the spec's example: balance 100, amount 30, fee 1,
existential deposit 1, keep_alive true — required 32 is at most 100, so the
flow submits; and at balance 31 the flow aborts without submission. -/
theorem transfer_balance_gate_witness :
    (transfer_extrinsic ⟨true, ⟨100⟩, ⟨1⟩, ⟨30⟩, ⟨1⟩, true, false, false, true⟩).submitted = true
    ∧ transfer_extrinsic ⟨true, ⟨31⟩, ⟨1⟩, ⟨30⟩, ⟨1⟩, true, false, false, true⟩ =
      ⟨false, false⟩ := by
  constructor
  · exact (transfer_balance_gate
      ⟨true, ⟨100⟩, ⟨1⟩, ⟨30⟩, ⟨1⟩, true, false, false, true⟩ rfl (Or.inl rfl)).1.mpr
      (by decide)
  · exact (transfer_balance_gate
      ⟨true, ⟨31⟩, ⟨1⟩, ⟨30⟩, ⟨1⟩, true, false, false, true⟩ rfl (Or.inl rfl)).2
      (by decide)

/-- Claim C5: fee estimation is total (never raises): a successful payment-info
query of `f` yields `Balance.from_rao f` with no warning; any failure yields
the hardcoded default of 2·10^7 rao (0.02 token) together with a warning, and
the flow continues with that value. -/
theorem get_transfer_fee_fallback :
    (∀ f : ℕ, get_transfer_fee (some f) = (Balance.from_rao f, false))
    ∧ get_transfer_fee none = (Balance.from_rao 20000000, true)
    ∧ (Balance.from_rao 20000000).tao = 1 / 50 := by
  refine ⟨fun f => rfl, rfl, ?_⟩
  unfold Balance.from_rao Balance.tao
  norm_num

/-! ## Set-take flow (`root.py`, `set_take_extrinsic`, lines 389-495) -/

/-- Python `int()` applied to a number: truncation toward zero. -/
def py_int (q : ℚ) : ℤ := if 0 ≤ q then ⌊q⌋ else ⌈q⌉

/-- The u16 conversion used by `set_take_extrinsic`: line 446 computes
`take_u16 = int(take * 0xFFFF)` and lines 452-454 compute
`current_take = int(float(delegate.take) * 65535.0)` (`0xFFFF = 65535`). -/
def take_to_u16 (take : ℚ) : ℤ := py_int (take * 65535)

/-- The conversion as the spec words it (for comparison with `take_to_u16`):
`round(take_fraction * 65535)`. -/
def take_to_u16_spec (take : ℚ) : ℤ := round (take * 65535)

inductive TakeAction
  | noop
  | increase_take
  | decrease_take
deriving DecidableEq, Repr

/-- Arguments and observed external-call outcomes of `set_take_extrinsic`:
the requested `take` fraction, the delegate info returned by the
`delegateInfo_getDelegate` RPC (`none` when no delegate record exists, else
the currently observed take fraction), and the submission outcome. -/
structure SetTakeInputs where
  take : ℚ
  delegate_take : Option ℚ
  submit_success : Bool
deriving DecidableEq, Repr

structure SetTakeResult where
  success : Bool
  action : TakeAction
deriving DecidableEq, Repr

/-- `set_take_extrinsic` from `root.py` lines 445-495: convert both takes to
u16 scale; equal → return success with no submission; current unset or lower
→ submit `increase_take`; otherwise submit `decrease_take`.  The action is
chosen before any submission happens. -/
def set_take_extrinsic (i : SetTakeInputs) : SetTakeResult :=
  match i.delegate_take.map take_to_u16 with
  | some c =>
      if take_to_u16 i.take = c then ⟨true, .noop⟩
      else if c < take_to_u16 i.take then ⟨i.submit_success, .increase_take⟩
      else ⟨i.submit_success, .decrease_take⟩
  | none => ⟨i.submit_success, .increase_take⟩

/-- Helper for evaluating the u16 conversion at concrete nonnegative takes. -/
theorem take_to_u16_eval (t : ℚ) (n : ℤ) (h0 : 0 ≤ t)
    (h1 : (n : ℚ) ≤ t * 65535) (h2 : t * 65535 < n + 1) : take_to_u16 t = n := by
  unfold take_to_u16 py_int
  rw [if_pos (by positivity)]
  exact Int.floor_eq_iff.mpr ⟨h1, h2⟩

/-- Claim C3: in the set-take flow compared in u16 scale, equal takes yield a
no-op success without submission; an unset or lower current take yields an
`increase_take` submission; a higher current take yields a `decrease_take`
submission. -/
theorem set_take_direction (i : SetTakeInputs) :
    (i.delegate_take.map take_to_u16 = some (take_to_u16 i.take) →
      set_take_extrinsic i = ⟨true, .noop⟩)
    ∧ (∀ c : ℤ, i.delegate_take.map take_to_u16 = some c → c < take_to_u16 i.take →
        (set_take_extrinsic i).action = .increase_take)
    ∧ (i.delegate_take.map take_to_u16 = none →
        (set_take_extrinsic i).action = .increase_take)
    ∧ (∀ c : ℤ, i.delegate_take.map take_to_u16 = some c → take_to_u16 i.take < c →
        (set_take_extrinsic i).action = .decrease_take) := by
  refine ⟨?_, ?_, ?_, ?_⟩
  · intro h
    unfold set_take_extrinsic
    rw [h]
    simp
  · intro c h hlt
    have hne : ¬(take_to_u16 i.take = c) := by omega
    unfold set_take_extrinsic
    rw [h]
    simp [hne, hlt]
  · intro h
    unfold set_take_extrinsic
    rw [h]
  · intro c h hgt
    have hne : ¬(take_to_u16 i.take = c) := by omega
    have hnlt : ¬(c < take_to_u16 i.take) := by omega
    unfold set_take_extrinsic
    rw [h]
    simp [hne, hnlt]

/-- Witness for C3 at the spec's example: current take 0.10 (u16 6553);
requested 0.10 → no-op success, requested 0.15 (u16 9830) → increase,
requested 0.05 (u16 3276) → decrease. -/
theorem set_take_direction_witness :
    set_take_extrinsic ⟨1 / 10, some (1 / 10), true⟩ = ⟨true, .noop⟩
    ∧ (set_take_extrinsic ⟨3 / 20, some (1 / 10), true⟩).action = .increase_take
    ∧ (set_take_extrinsic ⟨1 / 20, some (1 / 10), true⟩).action = .decrease_take := by
  have e10 : take_to_u16 (1 / 10) = 6553 :=
    take_to_u16_eval _ _ (by norm_num) (by norm_num) (by norm_num)
  have e15 : take_to_u16 (3 / 20) = 9830 :=
    take_to_u16_eval _ _ (by norm_num) (by norm_num) (by norm_num)
  have e05 : take_to_u16 (1 / 20) = 3276 :=
    take_to_u16_eval _ _ (by norm_num) (by norm_num) (by norm_num)
  refine ⟨?_, ?_, ?_⟩
  · exact (set_take_direction ⟨1 / 10, some (1 / 10), true⟩).1 rfl
  · exact (set_take_direction ⟨3 / 20, some (1 / 10), true⟩).2.1 6553
      (congrArg some e10)
      (by show (6553 : ℤ) < take_to_u16 (3 / 20); rw [e15]; norm_num)
  · exact (set_take_direction ⟨1 / 20, some (1 / 10), true⟩).2.2.2 6553
      (congrArg some e10)
      (by show take_to_u16 (1 / 20) < (6553 : ℤ); rw [e05]; norm_num)

/-- Counterexample for C4: at take fraction 0.10 the code's conversion
`int(take * 0xFFFF)` gives 6553 while the spec's `round(take * 65535)`
gives 6554 (the product is 6553.5), so the conversion is not rounding. -/
theorem take_to_u16_not_round : take_to_u16 (1 / 10) ≠ take_to_u16_spec (1 / 10) := by
  have e10 : take_to_u16 (1 / 10) = 6553 :=
    take_to_u16_eval _ _ (by norm_num) (by norm_num) (by norm_num)
  have espec : take_to_u16_spec (1 / 10) = 6554 := by
    unfold take_to_u16_spec
    rw [round_eq]
    have h : (1 / 10 : ℚ) * 65535 + 1 / 2 = 6554 := by norm_num
    rw [h]
    exact_mod_cast Int.floor_intCast 6554
  rw [e10, espec]
  decide

/-- Claim C4 (amended): for every nonnegative take fraction, the conversion
used on both the requested and the observed take before comparison is
truncation of the product with 65535 (`⌊take * 65535⌋`, Python `int()`),
not rounding. -/
theorem take_to_u16_is_trunc (t : ℚ) (h : 0 ≤ t) : take_to_u16 t = ⌊t * 65535⌋ := by
  unfold take_to_u16 py_int
  rw [if_pos (by positivity)]

/-- Witness for the amended C4 at take 0.10: the conversion equals
`⌊0.10 * 65535⌋ = 6553`. -/
theorem take_to_u16_is_trunc_witness :
    take_to_u16 (1 / 10) = ⌊(1 / 10 : ℚ) * 65535⌋ :=
  take_to_u16_is_trunc (1 / 10) (by norm_num)

/-! ## Delegate / undelegate flow (`root.py`, `delegate_extrinsic`, lines 498-669)

The flow computes a local `staking_balance` (lines 600-612): the full
previously-fetched coldkey balance when `amount is None`, else
`Balance.from_tao(amount)`; when delegating, 1000 rao are subtracted from it
when it strictly exceeds 1000 rao (lines 607-612).  That `staking_balance`
is used for the insufficient-balance check (line 615) and shown in the
confirmation prompt (lines 625-632).  The composed `add_stake` /
`remove_stake` call in `_do_delegation` (lines 525-541), however, carries
`amount.rao` — the original request, not the withheld `staking_balance`;
when `amount is None` that attribute access raises. -/

structure DelegateInputs where
  is_delegate : Bool
  coldkey_balance : Balance
  amount : Option Balance
  delegate : Bool
  prompt : Bool
  prompt_accept : Bool
  staking_success : Bool
deriving DecidableEq, Repr

inductive DelegateOutcome
  | aborted
  | rejected
  | submitted (amount_rao : ℤ) (success : Bool)
  | raised
deriving DecidableEq, Repr

/-- Lines 600-605: `staking_balance` is the whole coldkey balance when
`amount is None` ("Stake it all."), else `Balance.from_tao(amount)`. -/
def delegate_staking_balance (amount : Option Balance) (coldkey_balance : Balance) :
    Balance :=
  match amount with
  | none => Balance.from_tao coldkey_balance.tao
  | some a => Balance.from_tao a.tao

/-- Lines 607-612: when delegating, subtract 1000 rao from `staking_balance`
when it strictly exceeds 1000 rao ("Remove existential balance to keep key
alive."), else leave it unchanged. -/
def delegate_withhold (delegate : Bool) (staking_balance : Balance) : Balance :=
  if delegate then
    if Balance.from_rao 1000 < staking_balance then
      staking_balance - Balance.from_rao 1000
    else staking_balance
  else staking_balance

/-- `delegate_extrinsic`: validate the delegate hotkey, compute the withheld
staking balance, abort on insufficient balance, optionally prompt, then
submit `_do_delegation`, whose call carries `amount.rao` (raising when the
`amount` argument was `None`). -/
def delegate_extrinsic (i : DelegateInputs) : DelegateOutcome :=
  if ¬ i.is_delegate then .aborted
  else if i.coldkey_balance <
      delegate_withhold i.delegate (delegate_staking_balance i.amount i.coldkey_balance) then
    .aborted
  else if i.prompt ∧ ¬ i.prompt_accept then .rejected
  else
    match i.amount with
    | some a => .submitted a.rao i.staking_success
    | none => .raised

theorem delegate_staking_balance_some (a b : Balance) :
    delegate_staking_balance (some a) b = a := Balance.from_tao_tao a

theorem delegate_staking_balance_none (b : Balance) :
    delegate_staking_balance none b = b := Balance.from_tao_tao b

/-- Counterexample for C2: requesting 5000 rao (with ample balance, prompts
off) submits `add_stake` with `amount_staked = 5000` — the full request —
not the 4000 the claim predicts; the 1000-rao withholding only affects the
locally computed staking balance. -/
theorem delegate_withholding_counterexample :
    delegate_extrinsic
        ⟨true, ⟨1000000000⟩, some ⟨5000⟩, true, false, false, true⟩ =
      .submitted 5000 true
    ∧ delegate_extrinsic
        ⟨true, ⟨1000000000⟩, some ⟨5000⟩, true, false, false, true⟩ ≠
      .submitted 4000 true := by
  have key : delegate_extrinsic
      ⟨true, ⟨1000000000⟩, some ⟨5000⟩, true, false, false, true⟩ =
      .submitted 5000 true := by
    simp only [delegate_extrinsic, delegate_staking_balance_some]
    decide
  exact ⟨key, by rw [key]; decide⟩

/-- Claim C2 (amended): in the delegate (stake-add) flow the 1000-rao
withholding applies to the locally computed staking balance used for the
balance check and the confirmation prompt, and only when the requested
amount strictly exceeds 1000 rao (at exactly 1000 rao or below the full
amount is kept); the submitted `add_stake` call always carries the full
requested amount, with no withholding. -/
theorem delegate_withholding_amended (i : DelegateInputs) (a : Balance)
    (hd : i.delegate = true) (ha : i.amount = some a) :
    ((Balance.from_rao 1000 < a →
        delegate_withhold i.delegate (delegate_staking_balance i.amount i.coldkey_balance)
          = a - Balance.from_rao 1000)
      ∧ (a ≤ Balance.from_rao 1000 →
        delegate_withhold i.delegate (delegate_staking_balance i.amount i.coldkey_balance)
          = a))
    ∧ (∀ (x : ℤ) (b : Bool), delegate_extrinsic i = .submitted x b → x = a.rao) := by
  rw [ha, delegate_staking_balance_some, hd]
  refine ⟨⟨?_, ?_⟩, ?_⟩
  · intro hlt
    unfold delegate_withhold
    rw [if_pos rfl, if_pos hlt]
  · intro hle
    unfold delegate_withhold
    rw [if_pos rfl, if_neg (Balance.not_lt_of_le hle)]
  · intro x b h
    unfold delegate_extrinsic at h
    rw [ha] at h
    split_ifs at h
    · injection h with h1 h2
      exact h1.symm

/-- Witness for the amended C2 at requested amount 5000 rao: the withheld
staking balance is 4000 rao, while the submitted call amount is 5000 rao. -/
theorem delegate_withholding_amended_witness :
    delegate_withhold true (delegate_staking_balance (some ⟨5000⟩) ⟨1000000000⟩)
      = (⟨5000⟩ : Balance) - Balance.from_rao 1000
    ∧ (5000 : ℤ) = (⟨5000⟩ : Balance).rao := by
  constructor
  · exact (delegate_withholding_amended
      ⟨true, ⟨1000000000⟩, some ⟨5000⟩, true, false, false, true⟩ ⟨5000⟩ rfl rfl).1.1
      (by decide)
  · exact (delegate_withholding_amended
      ⟨true, ⟨1000000000⟩, some ⟨5000⟩, true, false, false, true⟩ ⟨5000⟩ rfl rfl).2
      5000 true (by simp only [delegate_extrinsic, delegate_staking_balance_some]; decide)

/-- Claim C10: when the `amount` argument is `None`, the staking balance is
set to the entire previously-fetched coldkey balance ("Stake it all.",
lines 601-603), and the 1000-rao withholding rule is then applied to that
balance. -/
theorem delegate_stake_all (i : DelegateInputs)
    (hn : i.amount = none) (hd : i.delegate = true) :
    delegate_staking_balance i.amount i.coldkey_balance = i.coldkey_balance
    ∧ delegate_withhold i.delegate (delegate_staking_balance i.amount i.coldkey_balance)
      = (if Balance.from_rao 1000 < i.coldkey_balance then
          i.coldkey_balance - Balance.from_rao 1000 else i.coldkey_balance) := by
  rw [hn, delegate_staking_balance_none, hd]
  exact ⟨rfl, rfl⟩

/-- Witness for C10 at coldkey balance 5000 rao and `amount = None`. -/
theorem delegate_stake_all_witness :
    delegate_staking_balance none ⟨5000⟩ = (⟨5000⟩ : Balance)
    ∧ delegate_withhold true (delegate_staking_balance none ⟨5000⟩)
      = (if Balance.from_rao 1000 < (⟨5000⟩ : Balance) then
          (⟨5000⟩ : Balance) - Balance.from_rao 1000 else ⟨5000⟩) :=
  delegate_stake_all ⟨true, ⟨5000⟩, none, true, false, false, true⟩ rfl rfl

/-! ## Senate vote (`root.py`, `vote_senate_extrinsic` lines 206-275 and
`senate_vote` lines 990-1032)

SS58 addresses are modelled as opaque natural-number identifiers; the aye
and nay tallies of a proposal are the lists returned by the re-query of
`Triumvirate.Voting` after submission. -/

structure ProposalVoteData where
  ayes : List ℕ
  nays : List ℕ
deriving DecidableEq, Repr

/-- Arguments and observed external outcomes of `vote_senate_extrinsic`:
the `prompt` flag and the user's answer to "Cast a vote of ...?", the
submission outcome of `sign_and_send_extrinsic`, the wallet hotkey, and the
vote data re-queried after a reported-success submission. -/
structure VoteSenateInputs where
  prompt : Bool
  prompt_accept : Bool
  submit_success : Bool
  hotkey : ℕ
  post_vote_data : ProposalVoteData
deriving DecidableEq, Repr

structure VoteTrace where
  success : Bool
  submitted : Bool
deriving DecidableEq, Repr

/-- `vote_senate_extrinsic` lines 233-275: optional prompt, submit, and on a
reported-success submission re-query the tallies; success exactly when the
hotkey's count in the ayes or in the nays is positive, else the
"Unknown error. Couldn't find vote." failure. -/
def vote_senate_extrinsic (i : VoteSenateInputs) : VoteTrace :=
  if i.prompt ∧ ¬ i.prompt_accept then ⟨false, false⟩
  else if ¬ i.submit_success then ⟨false, true⟩
  else if 0 < i.post_vote_data.ayes.count i.hotkey
      ∨ 0 < i.post_vote_data.nays.count i.hotkey then ⟨true, true⟩
  else ⟨false, true⟩

structure SenateVoteInputs where
  proposal_hash_nonempty : Bool
  is_senate_member : Bool
  vote_data_found : Bool
  extrinsic : VoteSenateInputs
deriving DecidableEq, Repr

/-- A trace of `senate_vote`: its boolean result, whether the interactive
"Desired vote for proposal" prompt was reached, and whether an extrinsic
submission was attempted. -/
structure SenateTrace where
  success : Bool
  vote_prompt_shown : Bool
  submitted : Bool
deriving DecidableEq, Repr

/-- `senate_vote` lines 990-1032: abort on a missing proposal hash, on the
hotkey not being a senate member, or on the proposal's vote data not being
found — all before the vote prompt; otherwise prompt for the desired vote
and call `vote_senate_extrinsic` with `prompt=True`. -/
def senate_vote (i : SenateVoteInputs) : SenateTrace :=
  if ¬ i.proposal_hash_nonempty then ⟨false, false, false⟩
  else if ¬ i.is_senate_member then ⟨false, false, false⟩
  else if ¬ i.vote_data_found then ⟨false, false, false⟩
  else
    let r := vote_senate_extrinsic { i.extrinsic with prompt := true }
    ⟨r.success, true, r.submitted⟩

/-- Claim C6: a non-senate-member hotkey makes `senate_vote` fail before any
vote prompt or submission; and within `vote_senate_extrinsic`, once a
submission reports success, the result is success exactly when the hotkey
appears in the re-queried ayes or nays — absence yields failure. -/
theorem senate_vote_membership_and_tally (i : SenateVoteInputs) (e : VoteSenateInputs)
    (hm : i.is_senate_member = false)
    (hs : e.submit_success = true)
    (hp : e.prompt = false ∨ e.prompt_accept = true) :
    senate_vote i = ⟨false, false, false⟩
    ∧ (vote_senate_extrinsic e).submitted = true
    ∧ ((vote_senate_extrinsic e).success = true ↔
        e.hotkey ∈ e.post_vote_data.ayes ∨ e.hotkey ∈ e.post_vote_data.nays) := by
  have habort : senate_vote i = ⟨false, false, false⟩ := by
    unfold senate_vote
    cases hh : i.proposal_hash_nonempty <;> simp [hh, hm]
  have hcond : ¬((e.prompt = true) ∧ ¬(e.prompt_accept = true)) := by
    rcases hp with h | h
    · intro hc; rw [h] at hc; exact Bool.false_ne_true hc.1
    · intro hc; exact hc.2 h
  have hvote : vote_senate_extrinsic e =
      (if 0 < e.post_vote_data.ayes.count e.hotkey
          ∨ 0 < e.post_vote_data.nays.count e.hotkey then ⟨true, true⟩
        else ⟨false, true⟩) := by
    unfold vote_senate_extrinsic
    rw [if_neg hcond, hs, if_neg (fun hc => hc rfl)]
  refine ⟨habort, ?_, ?_⟩
  · rw [hvote]
    by_cases hmem : 0 < e.post_vote_data.ayes.count e.hotkey
        ∨ 0 < e.post_vote_data.nays.count e.hotkey
    · rw [if_pos hmem]
    · rw [if_neg hmem]
  · rw [hvote]
    by_cases hmem : 0 < e.post_vote_data.ayes.count e.hotkey
        ∨ 0 < e.post_vote_data.nays.count e.hotkey
    · rw [if_pos hmem]
      exact iff_of_true rfl
        (hmem.imp List.count_pos_iff.mp List.count_pos_iff.mp)
    · rw [if_neg hmem]
      exact iff_of_false Bool.false_ne_true
        (fun h => hmem (h.imp List.count_pos_iff.mpr List.count_pos_iff.mpr))

/-- Witness for C6: hotkey 7 is not a senate member → all-false trace; and a
reported-success submission with hotkey 7 in the nays yields success, while
with empty tallies it yields failure. -/
theorem senate_vote_membership_and_tally_witness :
    senate_vote ⟨true, false, true, ⟨true, true, true, 7, ⟨[], []⟩⟩⟩ = ⟨false, false, false⟩
    ∧ (vote_senate_extrinsic ⟨false, false, true, 7, ⟨[3], [7]⟩⟩).success = true
    ∧ (vote_senate_extrinsic ⟨false, false, true, 7, ⟨[], []⟩⟩).success = false := by
  refine ⟨?_, ?_, ?_⟩
  · exact (senate_vote_membership_and_tally
      ⟨true, false, true, ⟨true, true, true, 7, ⟨[], []⟩⟩⟩
      ⟨true, true, true, 7, ⟨[], []⟩⟩ rfl rfl (Or.inr rfl)).1
  · exact (senate_vote_membership_and_tally
      ⟨true, false, true, ⟨true, true, true, 7, ⟨[], []⟩⟩⟩
      ⟨false, false, true, 7, ⟨[3], [7]⟩⟩ rfl rfl (Or.inl rfl)).2.2.mpr
      (by decide)
  · have h := (senate_vote_membership_and_tally
      ⟨true, false, true, ⟨true, true, true, 7, ⟨[], []⟩⟩⟩
      ⟨false, false, true, 7, ⟨[], []⟩⟩ rfl rfl (Or.inl rfl)).2.2
    cases hv : (vote_senate_extrinsic ⟨false, false, true, 7, ⟨[], []⟩⟩).success
    · rfl
    · exact absurd (h.mp hv) (by decide)

/-! ## Burned register (`root.py`, `burned_register_extrinsic`, lines 278-386) -/

/-- Arguments and observed external outcomes of `burned_register_extrinsic`:
whether the target subnet exists, whether the neuron looked up for the
wallet's hotkey on that subnet is the null neuron (not registered), the
prompt answer, the submission outcome, and whether the post-submission
re-query finds netuids for the hotkey. -/
structure BurnedRegisterInputs where
  subnet_exists : Bool
  neuron_is_null : Bool
  prompt : Bool
  prompt_accept : Bool
  submit_success : Bool
  netuids_nonempty : Bool
deriving DecidableEq, Repr

structure BurnedRegisterTrace where
  success : Bool
  submitted : Bool
deriving DecidableEq, Repr

/-- `burned_register_extrinsic`: abort when the subnet does not exist;
short-circuit with success and no submission when the account's neuron is
already registered (not null, lines 326-334); otherwise prompt, submit
`burned_register`, and on reported success require the re-queried netuid
list to be non-empty. -/
def burned_register_extrinsic (i : BurnedRegisterInputs) : BurnedRegisterTrace :=
  if ¬ i.subnet_exists then ⟨false, false⟩
  else if ¬ i.neuron_is_null then ⟨true, false⟩
  else if i.prompt ∧ ¬ i.prompt_accept then ⟨false, false⟩
  else if ¬ i.submit_success then ⟨false, true⟩
  else ⟨i.netuids_nonempty, true⟩

/-- Claim C7: for an account that already has a registered (non-null) neuron
on an existing target subnet, `burned_register_extrinsic` returns success
without submitting any extrinsic, so re-running it performs no second
submission. -/
theorem burned_register_idempotent (i : BurnedRegisterInputs)
    (hs : i.subnet_exists = true) (hr : i.neuron_is_null = false) :
    burned_register_extrinsic i = ⟨true, false⟩ := by
  unfold burned_register_extrinsic
  rw [hs, hr, if_neg (fun h => h rfl), if_pos (fun h => Bool.false_ne_true h)]

/-- Witness for C7: an already-registered account (null-neuron check false)
on an existing subnet short-circuits to success with no submission. -/
theorem burned_register_idempotent_witness :
    burned_register_extrinsic ⟨true, false, true, false, true, true⟩ = ⟨true, false⟩ :=
  burned_register_idempotent ⟨true, false, true, false, true, true⟩ rfl rfl

/-! ## Weight view normalization (`root.py`, `get_weights`, lines 845-864) -/

/-- The per-uid normalization step of `get_weights`: an empty weight list
maps to the empty normalized list with no division performed; otherwise
each stored `(netuid, value)` becomes `(netuid, value / max(sum(values), 1))`
(`np.array(weights_data)[:, 1] / max(np.sum(weights_data, axis=0)[1], 1)`). -/
def normalize_weights (weights_data : List (ℕ × ℕ)) : List (ℕ × ℚ) :=
  if weights_data = [] then []
  else
    weights_data.map (fun p =>
      (p.1, (p.2 : ℚ) / ((max ((weights_data.map Prod.snd).sum) 1 : ℕ) : ℚ)))

/-- Claim C8: the empty weight list normalizes to the empty mapping, and for
every entry `(netuid, value)` of a weight list the normalized mapping
contains `(netuid, value / max(sum(values), 1))` — the denominator clamped
to at least 1, so no division by zero occurs. -/
theorem get_weights_normalization :
    normalize_weights [] = []
    ∧ (∀ (ws : List (ℕ × ℕ)) (p : ℕ × ℕ), p ∈ ws →
        (p.1, (p.2 : ℚ) / ((max ((ws.map Prod.snd).sum) 1 : ℕ) : ℚ)) ∈
          normalize_weights ws) := by
  constructor
  · rfl
  · intro ws p hp
    have hne : ws ≠ [] := by
      intro h
      rw [h] at hp
      exact absurd hp (List.not_mem_nil p)
    unfold normalize_weights
    rw [if_neg hne]
    exact List.mem_map.mpr ⟨p, hp, rfl⟩

/-- Witness for C8 at the spec's example: `[(1, 3), (2, 1)]` normalizes so
that netuid 1 maps to 3/4 and netuid 2 maps to 1/4. -/
theorem get_weights_normalization_witness :
    ((1 : ℕ), (3 : ℚ) / 4) ∈ normalize_weights [(1, 3), (2, 1)]
    ∧ ((2 : ℕ), (1 : ℚ) / 4) ∈ normalize_weights [(1, 3), (2, 1)] := by
  constructor
  · have h := get_weights_normalization.2 [(1, 3), (2, 1)] (1, 3) (by decide)
    have e : ((3 : ℕ) : ℚ) / ((max (([(1, 3), (2, 1)].map Prod.snd).sum) 1 : ℕ) : ℚ)
        = (3 : ℚ) / 4 := by norm_num
    rw [e] at h
    exact h
  · have h := get_weights_normalization.2 [(1, 3), (2, 1)] (2, 1) (by decide)
    have e : ((1 : ℕ) : ℚ) / ((max (([(1, 3), (2, 1)].map Prod.snd).sum) 1 : ℕ) : ℚ)
        = (1 : ℚ) / 4 := by norm_num
    rw [e] at h
    exact h

/-! ## Destination address validator (`utils.py`, lines 95-167)

Python strings are modelled as lists of characters and byte strings as
lists of naturals.  The external `ss58` and `Keypair` library calls are
modelled as oracle functions whose outcome `none` stands for the raised
`IndexError`/`ValueError` that the code catches; with those outcomes
supplied, every validator below is a total Lean function, so the wrappers
return a boolean and never raise. -/

inductive AddressInput
  | str (s : List Char)
  | bytes (b : List ℕ)
  | other
deriving DecidableEq, Repr

/-- Outcomes of the external ss58/keypair library calls.  `ss58_format` is
the `SS58_FORMAT` constant imported from the wallet library;
`ss58_is_valid s fmt` is `ss58.is_valid_ss58_address(s, fmt)` with `none`
for a raised `IndexError`; `keypair_ss58_nonnull pk` is whether
`Keypair(public_key=pk).ss58_address` is constructed and non-null, with
`none` for a raised `ValueError`/`IndexError`. -/
structure ExternalLibs where
  ss58_format : ℕ
  ss58_is_valid : List Char → ℕ → Option Bool
  keypair_ss58_nonnull : AddressInput → Option Bool

/-- `address.startswith("0x")` on the character-list model. -/
def startswith_0x : List Char → Bool
  | '0' :: 'x' :: _ => true
  | _ => false

/-- `is_valid_ss58_address` from `utils.py` lines 95-112: valid under
`SS58_FORMAT` or under the legacy format 42; a raised `IndexError` in
either call is caught and yields false. -/
def is_valid_ss58_address (env : ExternalLibs) (address : List Char) : Bool :=
  match env.ss58_is_valid address env.ss58_format with
  | none => false
  | some true => true
  | some false =>
    match env.ss58_is_valid address 42 with
    | none => false
    | some b => b

/-- `is_valid_ed25519_pubkey` from `utils.py` lines 115-142: a string key
must have length 64 or 66 and a byte key length 32, else `ValueError` is
raised and caught yielding false; otherwise the key must build a `Keypair`
with a non-null ss58 address; a non-string non-bytes input raises
`ValueError`, caught yielding false. -/
def is_valid_ed25519_pubkey (env : ExternalLibs) (public_key : AddressInput) : Bool :=
  match public_key with
  | .str s =>
    if s.length ≠ 64 ∧ s.length ≠ 66 then false
    else
      match env.keypair_ss58_nonnull public_key with
      | none => false
      | some ok => ok
  | .bytes b =>
    if b.length ≠ 32 then false
    else
      match env.keypair_ss58_nonnull public_key with
      | none => false
      | some ok => ok
  | .other => false

/-- `is_valid_bittensor_address_or_public_key` from `utils.py` lines
145-167: strings starting with `0x` are checked as ed25519 hex keys, other
strings as ss58 addresses, byte inputs as ed25519 byte keys, and any other
type is invalid. -/
def is_valid_bittensor_address_or_public_key (env : ExternalLibs)
    (address : AddressInput) : Bool :=
  match address with
  | .str s =>
    if startswith_0x s then is_valid_ed25519_pubkey env (.str s)
    else is_valid_ss58_address env s
  | .bytes b => is_valid_ed25519_pubkey env (.bytes b)
  | .other => false

/-- Claim C9: the destination validator is a total boolean function (all
library raises are caught), and it returns false for hex-prefixed strings
whose length is neither 64 nor 66, for byte inputs not of length 32, for
non-string non-bytes input, for strings the ss58 library rejects under both
formats, and for strings on which the ss58 library raises. -/
theorem address_validator_rejections (env : ExternalLibs) :
    (∀ s : List Char, startswith_0x s = true → s.length ≠ 64 → s.length ≠ 66 →
      is_valid_bittensor_address_or_public_key env (.str s) = false)
    ∧ (∀ b : List ℕ, b.length ≠ 32 →
      is_valid_bittensor_address_or_public_key env (.bytes b) = false)
    ∧ is_valid_bittensor_address_or_public_key env .other = false
    ∧ (∀ s : List Char, startswith_0x s = false →
        env.ss58_is_valid s env.ss58_format = some false →
        env.ss58_is_valid s 42 = some false →
        is_valid_bittensor_address_or_public_key env (.str s) = false)
    ∧ (∀ s : List Char, startswith_0x s = false →
        env.ss58_is_valid s env.ss58_format = none →
        is_valid_bittensor_address_or_public_key env (.str s) = false) := by
  refine ⟨?_, ?_, rfl, ?_, ?_⟩
  · intro s hx h64 h66
    show (if startswith_0x s = true then is_valid_ed25519_pubkey env (.str s)
        else is_valid_ss58_address env s) = false
    rw [hx, if_pos rfl]
    show (if s.length ≠ 64 ∧ s.length ≠ 66 then false
        else
          match env.keypair_ss58_nonnull (.str s) with
          | none => false
          | some ok => ok) = false
    rw [if_pos ⟨h64, h66⟩]
  · intro b h32
    show (if b.length ≠ 32 then false
        else
          match env.keypair_ss58_nonnull (.bytes b) with
          | none => false
          | some ok => ok) = false
    rw [if_pos h32]
  · intro s hx hv1 hv2
    show (if startswith_0x s = true then is_valid_ed25519_pubkey env (.str s)
        else is_valid_ss58_address env s) = false
    rw [hx, if_neg (fun h => Bool.false_ne_true h)]
    unfold is_valid_ss58_address
    rw [hv1, hv2]
  · intro s hx hv1
    show (if startswith_0x s = true then is_valid_ed25519_pubkey env (.str s)
        else is_valid_ss58_address env s) = false
    rw [hx, if_neg (fun h => Bool.false_ne_true h)]
    unfold is_valid_ss58_address
    rw [hv1]

/-- Witness for C9 under an oracle that reports every ss58 string invalid
and every keypair constructible: a 3-character hex-prefixed string, a
3-byte key, a non-string non-bytes input and a rejected ss58 string are all
invalid. -/
theorem address_validator_rejections_witness :
    is_valid_bittensor_address_or_public_key
        ⟨42, fun _ _ => some false, fun _ => some true⟩ (.str ['0', 'x', '1']) = false
    ∧ is_valid_bittensor_address_or_public_key
        ⟨42, fun _ _ => some false, fun _ => some true⟩ (.bytes [1, 2, 3]) = false
    ∧ is_valid_bittensor_address_or_public_key
        ⟨42, fun _ _ => some false, fun _ => some true⟩ .other = false
    ∧ is_valid_bittensor_address_or_public_key
        ⟨42, fun _ _ => some false, fun _ => some true⟩ (.str ['a']) = false := by
  refine ⟨?_, ?_, ?_, ?_⟩
  · exact (address_validator_rejections ⟨42, fun _ _ => some false, fun _ => some true⟩).1
      ['0', 'x', '1'] rfl (by decide) (by decide)
  · exact (address_validator_rejections
      ⟨42, fun _ _ => some false, fun _ => some true⟩).2.1 [1, 2, 3] (by decide)
  · exact (address_validator_rejections
      ⟨42, fun _ _ => some false, fun _ => some true⟩).2.2.1
  · exact (address_validator_rejections
      ⟨42, fun _ _ => some false, fun _ => some true⟩).2.2.2.1 ['a'] rfl rfl rfl
